import Mathlib

/-!
Verification of the Robot-Manager-UI interactive session client against its
specification. The repository's sources contain the frontend: the polling hook
`useInteractiveSession` (src/unnamed/part_000), the API wrappers
(src/frontend/src/api/robotApi.ts) and the terminal component
(src/frontend/src/components/InteractiveTerminal.tsx). The backend Interactive
Process Session Engine described by the spec is not part of the sources; where
a claim depends on it, the corresponding definition is modelled from the spec
and marked as such in its doc comment.
-/

namespace RobotManager

/-- Session status, from `InteractiveSessionResponse.status` in robotApi.ts:
pending, running, completed, failed or cancelled. -/
inductive Status where
  | pending
  | running
  | completed
  | failed
  | cancelled
deriving DecidableEq, Repr, Fintype

/-- Terminal statuses, per the glossary: `completed`, `failed`, `cancelled`. -/
def Status.isTerminal : Status → Bool
  | .completed => true
  | .failed => true
  | .cancelled => true
  | _ => false

/-- The session snapshot the client observes, from the
`InteractiveSessionResponse` interface in robotApi.ts (lines 72-79). Strings
are embedded as `List Char`. -/
structure InteractiveSessionResponse where
  session_id : String
  command : String
  status : Status
  output : List Char
  started_at : Option String
  completed_at : Option String
deriving DecidableEq, Repr

namespace useInteractiveSession

/-- Default value of the hook's `pollInterval` parameter, in milliseconds
(`pollInterval = 500` in the hook signature). -/
def defaultPollInterval : Nat := 500

/-- Observable state of the hook: the `session` and `error` React state cells,
whether the `setInterval` timer is live (`intervalRef`), and a counter of
Poll/Get requests issued so far (each call of the hook's inner `fetchSession`
performs exactly one `getInteractiveSession` request). -/
structure PollState where
  session : Option InteractiveSessionResponse
  error : Option String
  intervalActive : Bool
  requestsIssued : Nat
deriving DecidableEq, Repr

/-- One execution of the hook's inner `fetchSession`: it issues one Poll/Get
request whose outcome is `result`; on success it stores the snapshot, clears
the error, and clears the interval when the status is terminal; on failure it
only records the error message. -/
def fetchSession (result : Except String InteractiveSessionResponse)
    (st : PollState) : PollState :=
  match result with
  | .ok data =>
      { st with
        session := some data
        error := none
        requestsIssued := st.requestsIssued + 1
        intervalActive :=
          if data.status.isTerminal then false else st.intervalActive }
  | .error msg =>
      { st with
        error := some msg
        requestsIssued := st.requestsIssued + 1 }

/-- The body of the polling `useEffect`. The previous effect's cleanup has
already cleared any live interval. With a null `sessionId` it sets the session
to null and returns without fetching or installing an interval; otherwise it
runs `fetchSession` immediately (with outcome `firstResult`) and installs the
interval. In the code `setInterval` runs before the async first fetch
resolves, so a terminal first result still finds and clears the interval. -/
def startPolling (sessionId : Option String)
    (firstResult : Except String InteractiveSessionResponse)
    (st : PollState) : PollState :=
  let cleaned : PollState := { st with intervalActive := false }
  match sessionId with
  | none => { cleaned with session := none }
  | some _ => fetchSession firstResult { cleaned with intervalActive := true }

/-- One firing opportunity of the interval timer: `fetchSession` runs only
while the interval is live. -/
def intervalTick (result : Except String InteractiveSessionResponse)
    (st : PollState) : PollState :=
  if st.intervalActive then fetchSession result st else st

/-- A sequence of interval firing opportunities with the given outcomes. -/
def runTicks (results : List (Except String InteractiveSessionResponse))
    (st : PollState) : PollState :=
  List.foldl (fun s r => intervalTick r s) st results

/-- The hook's `sendEnter` callback: with a null `sessionId` it returns at
once; otherwise it issues the request and on failure records only the error
message. The returned Bool says whether an API request was issued. -/
def sendEnter (sessionId : Option String) (apiResult : Except String Unit)
    (st : PollState) : PollState × Bool :=
  match sessionId with
  | none => (st, false)
  | some _ =>
      match apiResult with
      | .ok _ => (st, true)
      | .error msg => ({ st with error := some msg }, true)

/-- The hook's `sendText` callback, same shape as `sendEnter` with a text
payload. -/
def sendText (sessionId : Option String) (text : List Char)
    (apiResult : Except String Unit) (st : PollState) : PollState × Bool :=
  match sessionId with
  | none => (st, false)
  | some _ =>
      match apiResult with
      | .ok _ => (st, true)
      | .error msg => ({ st with error := some msg }, true)

/-- The hook's `cancel` callback: with a null `sessionId` it returns at once;
otherwise it issues the cancel request and, on success, immediately updates the
local snapshot, spreading the previous snapshot and overwriting only its
status field with cancelled (regardless of what the previous status was); on
failure it records only the error message. -/
def cancel (sessionId : Option String) (apiResult : Except String Unit)
    (st : PollState) : PollState × Bool :=
  match sessionId with
  | none => (st, false)
  | some _ =>
      match apiResult with
      | .ok _ =>
          ({ st with
              session := st.session.map (fun s => { s with status := .cancelled }) },
            true)
      | .error msg => ({ st with error := some msg }, true)

/-- The hook's derived flag `isRunning`: true when the observed status is
running or pending, false otherwise (also for a null session). -/
def isRunning (session : Option InteractiveSessionResponse) : Bool :=
  match session with
  | some s => s.status = .running || s.status = .pending
  | none => false

/-- The hook's derived flag `isDone`: status is completed, failed or
cancelled. -/
def isDone (session : Option InteractiveSessionResponse) : Bool :=
  match session with
  | some s => s.status = .completed || s.status = .failed || s.status = .cancelled
  | none => false

end useInteractiveSession

namespace InteractiveTerminal

/-- `MAX_DISPLAY_CHARS` from InteractiveTerminal.tsx. -/
def MAX_DISPLAY_CHARS : Nat := 20000

/-- The truncation marker line prepended when output is truncated for
display. -/
def truncMarker : List Char := "… (earlier output truncated) …\n".data

/-- The component's `displayOutput` memo: empty for a null session or empty
output; output verbatim when at most `MAX_DISPLAY_CHARS` long; otherwise the
marker line followed by `output.slice(-MAX_DISPLAY_CHARS)`, the last
`MAX_DISPLAY_CHARS` characters. -/
def displayOutput (session : Option InteractiveSessionResponse) : List Char :=
  match session with
  | none => []
  | some s =>
      if s.output = [] then []
      else if s.output.length ≤ MAX_DISPLAY_CHARS then s.output
      else truncMarker ++ s.output.drop (s.output.length - MAX_DISPLAY_CHARS)

/-- Whether the Send Enter control is offered: the component renders the
button exactly when its `isRunning` prop is true, and every panel
(CalibrationPanel, RecordingPanel, TeleoperationPanel) passes the hook's
`isRunning` flag for that prop. -/
def sendEnterControlVisible (session : Option InteractiveSessionResponse) : Bool :=
  useInteractiveSession.isRunning session

end InteractiveTerminal

namespace Backend

/-- Events driving the backend status state machine (§4.3 transition table). -/
inductive SessionEvent where
  | spawnSucceeds
  | spawnFails
  | exitZero
  | exitNonZero
  | cancelRequested
  | killedExternally
deriving DecidableEq, Repr, Fintype

/-- Error reported for an off-table transition attempt (§4.3, §7). -/
inductive StateError where
  | InvalidState
deriving DecidableEq, Repr

/-- Modelled from the spec: the backend Status State Machine of §4.3 — the
engine itself is not part of this repository's sources. The table's edges are
pending→running (spawn succeeds), pending→failed (spawn fails),
running→completed (exit code 0), running→failed (exit non-zero or killed
externally), running→cancelled (cancellation requested); any transition
attempted from a terminal state, and any other off-table attempt, is rejected
as `InvalidState` with the state unchanged. -/
def stepStatus : Status → SessionEvent → Except StateError Status
  | .pending, .spawnSucceeds => .ok .running
  | .pending, .spawnFails => .ok .failed
  | .running, .exitZero => .ok .completed
  | .running, .exitNonZero => .ok .failed
  | .running, .cancelRequested => .ok .cancelled
  | .running, .killedExternally => .ok .failed
  | _, _ => .error .InvalidState

/-- The edges of the §4.3 transition table, as pairs of statuses. -/
def tableEdge (a b : Status) : Bool :=
  (a = .pending && b = .running) || (a = .pending && b = .failed) ||
    (a = .running && b = .completed) || (a = .running && b = .failed) ||
    (a = .running && b = .cancelled)

/-- Modelled from the spec: the backend's per-session state, as far as the
claims need it — the snapshot fields of §3 plus the sequence of writes made to
the process's input stream (§4.5) and a count of termination signals sent to
the process group (§4.6). -/
structure BackendSession where
  session_id : String
  command : String
  status : Status
  output : List Char
  started_at : Option String
  completed_at : Option String
  stdinWrites : List (List Char)
  killSignalsSent : Nat
deriving DecidableEq, Repr

/-- Result of an input-relay operation (§4.5, §7). -/
inductive RelayResult where
  | ok
  | sessionNotRunning
deriving DecidableEq, Repr

/-- Modelled from the spec: Input Relay `send_enter` (§4.5) — the relay is not
part of this repository's sources. It writes a single newline to the process's
input stream if and only if status is `running`; otherwise it fails with
`SessionNotRunning` and changes nothing. -/
def send_enter (s : BackendSession) : RelayResult × BackendSession :=
  if s.status = .running then
    (.ok, { s with stdinWrites := s.stdinWrites ++ [['\n']] })
  else (.sessionNotRunning, s)

/-- Modelled from the spec: Input Relay `send_text` (§4.5) — writes the text
followed by a newline under the same running-only precondition. -/
def send_text (s : BackendSession) (text : List Char) :
    RelayResult × BackendSession :=
  if s.status = .running then
    (.ok, { s with stdinWrites := s.stdinWrites ++ [text ++ ['\n']] })
  else (.sessionNotRunning, s)

/-- Modelled from the spec: Cancellation/Reaper `cancel` (§4.6) — not part of
this repository's sources. If status is `pending` or `running` it signals
termination to the process group and transitions status to `cancelled`; if
status is already terminal it is a no-op returning the current status. -/
def backendCancel (s : BackendSession) : Status × BackendSession :=
  if s.status.isTerminal then (s.status, s)
  else
    (.cancelled,
      { s with status := .cancelled, killSignalsSent := s.killSignalsSent + 1 })

/-- Modelled from the spec: the Output Aggregator (§4.4) — not part of this
repository's sources. It appends every chunk read from the process's combined
output stream to the buffer in order, dropping, reordering and filtering
nothing; the buffer observed after the first `n` chunks is their ordered
concatenation. -/
def outputAfter (chunks : List (List Char)) (n : Nat) : List Char :=
  (chunks.take n).flatten

/-- Modelled from the spec: Session Registry `get` (§4.1) — not part of this
repository's sources. It returns a read-only snapshot of the session's current
status, output and timestamps, with the accumulated output unmodified. -/
def registryGet (s : BackendSession) : InteractiveSessionResponse :=
  { session_id := s.session_id
    command := s.command
    status := s.status
    output := s.output
    started_at := s.started_at
    completed_at := s.completed_at }

end Backend

/-! Concrete fixtures used by counterexamples and witnesses. -/

/-- A running session snapshot, as returned while a calibration is alive. -/
def sessRunningEx : InteractiveSessionResponse :=
  { session_id := "sess-1"
    command := "python -m lerobot.calibrate"
    status := .running
    output := "Move the arm to the middle position".data
    started_at := some "2026-01-01T10:00:00"
    completed_at := none }

/-- A session snapshot that finished successfully. -/
def sessCompletedEx : InteractiveSessionResponse :=
  { session_id := "sess-2"
    command := "python -m lerobot.calibrate"
    status := .completed
    output := "Calibration complete".data
    started_at := some "2026-01-01T10:00:00"
    completed_at := some "2026-01-01T10:05:00" }

/-- A session snapshot that ended in failure. -/
def sessFailedEx : InteractiveSessionResponse :=
  { session_id := "sess-3"
    command := "python -m lerobot.teleoperate"
    status := .failed
    output := "Error: port not found".data
    started_at := some "2026-01-01T11:00:00"
    completed_at := some "2026-01-01T11:00:02" }

/-- An output longer than `MAX_DISPLAY_CHARS`. -/
def longOut : List Char := List.replicate 20001 'x'

/-- A running session whose accumulated output exceeds the display limit. -/
def sessLongEx : InteractiveSessionResponse :=
  { session_id := "sess-4"
    command := "python -m lerobot.record"
    status := .running
    output := longOut
    started_at := some "2026-01-01T12:00:00"
    completed_at := none }

/-- A hook state mid-poll with a running session and a live interval. -/
def pollStEx : useInteractiveSession.PollState :=
  { session := some sessRunningEx
    error := none
    intervalActive := true
    requestsIssued := 3 }

/-- A hook state after polling has stopped on a terminal status. -/
def stoppedStEx : useInteractiveSession.PollState :=
  { session := some sessCompletedEx
    error := none
    intervalActive := false
    requestsIssued := 11 }

/-- A backend session whose process is confirmed alive. -/
def bsRunningEx : Backend.BackendSession :=
  { session_id := "sess-1"
    command := "python -m lerobot.calibrate"
    status := .running
    output := "Move the arm to the middle position".data
    started_at := some "2026-01-01T10:00:00"
    completed_at := none
    stdinWrites := []
    killSignalsSent := 0 }

/-- A backend session whose process has not yet been confirmed started. -/
def bsPendingEx : Backend.BackendSession :=
  { session_id := "sess-5"
    command := "python -m lerobot.record"
    status := .pending
    output := []
    started_at := none
    completed_at := none
    stdinWrites := []
    killSignalsSent := 0 }

/-- A backend session already cancelled. -/
def bsCancelledEx : Backend.BackendSession :=
  { session_id := "sess-6"
    command := "python -m lerobot.teleoperate"
    status := .cancelled
    output := "stopping".data
    started_at := some "2026-01-01T13:00:00"
    completed_at := some "2026-01-01T13:00:10"
    stdinWrites := []
    killSignalsSent := 1 }

/-- Output chunks produced by a process, in order. -/
def chunksEx : List (List Char) :=
  ["Starting".data, " calibration".data, " done".data]

/-! Claims. -/

/-- C8: when the session id handed to the hook is null, the hook is a no-op at
the external interface: the observed session is null, no Poll/Get request is
issued and no interval is installed, and each of sendEnter, sendText and
cancel returns without issuing any request or changing any observable
state. -/
theorem claim_C8 :
    (∀ r st, (useInteractiveSession.startPolling none r st).session = none ∧
        (useInteractiveSession.startPolling none r st).requestsIssued =
          st.requestsIssued ∧
        (useInteractiveSession.startPolling none r st).intervalActive = false ∧
        (useInteractiveSession.startPolling none r st).error = st.error) ∧
    (∀ res st, useInteractiveSession.sendEnter none res st = (st, false)) ∧
    (∀ text res st,
        useInteractiveSession.sendText none text res st = (st, false)) ∧
    (∀ res st, useInteractiveSession.cancel none res st = (st, false)) :=
  ⟨fun _ _ => ⟨rfl, rfl, rfl, rfl⟩, fun _ _ => rfl, fun _ _ _ => rfl,
    fun _ _ => rfl⟩

/-- C9: the derived flags partition the status space: isRunning holds exactly
when status is running or pending, isDone exactly when status is completed,
failed or cancelled, the two are never both true, and both are false when the
session is null. -/
theorem claim_C9 :
    (∀ sess : Option InteractiveSessionResponse,
        useInteractiveSession.isRunning sess = true ↔
          ∃ s, sess = some s ∧ (s.status = .running ∨ s.status = .pending)) ∧
    (∀ sess : Option InteractiveSessionResponse,
        useInteractiveSession.isDone sess = true ↔
          ∃ s, sess = some s ∧
            (s.status = .completed ∨ s.status = .failed ∨
              s.status = .cancelled)) ∧
    (∀ sess : Option InteractiveSessionResponse,
        ¬(useInteractiveSession.isRunning sess = true ∧
          useInteractiveSession.isDone sess = true)) ∧
    useInteractiveSession.isRunning none = false ∧
    useInteractiveSession.isDone none = false := by
  refine ⟨?_, ?_, ?_, rfl, rfl⟩
  · intro sess
    cases sess with
    | none => simp [useInteractiveSession.isRunning]
    | some s => cases hs : s.status <;>
        simp [useInteractiveSession.isRunning, hs]
  · intro sess
    cases sess with
    | none => simp [useInteractiveSession.isDone]
    | some s => cases hs : s.status <;>
        simp [useInteractiveSession.isDone, hs]
  · intro sess
    cases sess with
    | none => simp [useInteractiveSession.isRunning]
    | some s => cases hs : s.status <;>
        simp [useInteractiveSession.isRunning, useInteractiveSession.isDone, hs]

/-- C9 witness: the characterizations instantiated on a concrete running
session. -/
theorem claim_C9_witness :
    useInteractiveSession.isRunning (some sessRunningEx) = true :=
  (claim_C9.1 (some sessRunningEx)).mpr ⟨sessRunningEx, rfl, Or.inl rfl⟩

/-- C10: a failed poll never destroys the last good snapshot: on a failed
Poll/Get the hook records only the error message and the previously observed
session snapshot is unchanged; a subsequent successful poll resets the error
to null. -/
theorem claim_C10 :
    (∀ msg st,
        (useInteractiveSession.fetchSession (.error msg) st).session =
          st.session ∧
        (useInteractiveSession.fetchSession (.error msg) st).error = some msg ∧
        (useInteractiveSession.fetchSession (.error msg) st).intervalActive =
          st.intervalActive) ∧
    (∀ data st,
        (useInteractiveSession.fetchSession (.ok data) st).error = none) :=
  ⟨fun _ _ => ⟨rfl, rfl, rfl⟩, fun _ _ => rfl⟩

/-- C6: for a non-null session id the hook issues a Poll/Get request
immediately and then on a timer whose default interval is 500 ms; once a poll
returns a terminal status the interval is cleared, and with the interval
cleared no further Poll/Get request is ever issued (and the snapshot no longer
changes). -/
theorem claim_C6 :
    useInteractiveSession.defaultPollInterval = 500 ∧
    (∀ id r st,
        (useInteractiveSession.startPolling (some id) r st).requestsIssued =
          st.requestsIssued + 1) ∧
    (∀ st data, data.status.isTerminal = true →
        (useInteractiveSession.fetchSession (.ok data) st).intervalActive =
          false) ∧
    (∀ rs st, st.intervalActive = false →
        (useInteractiveSession.runTicks rs st).requestsIssued =
          st.requestsIssued ∧
        (useInteractiveSession.runTicks rs st).session = st.session) := by
  refine ⟨rfl, ?_, ?_, ?_⟩
  · intro id r st
    cases r <;> rfl
  · intro st data h
    simp [useInteractiveSession.fetchSession, h]
  · intro rs
    induction rs with
    | nil => exact fun st _ => ⟨rfl, rfl⟩
    | cons r rs ih =>
        intro st h
        have ht : useInteractiveSession.intervalTick r st = st := by
          simp [useInteractiveSession.intervalTick, h]
        have hstep : useInteractiveSession.runTicks (r :: rs) st =
            useInteractiveSession.runTicks rs st := by
          simp [useInteractiveSession.runTicks, List.foldl, ht]
        rw [hstep]
        exact ih st h

/-- C6 witness: a terminal first poll clears the interval on a concrete state,
and with the interval cleared a further tick opportunity issues no request. -/
theorem claim_C6_witness :
    (useInteractiveSession.fetchSession (.ok sessCompletedEx)
        pollStEx).intervalActive = false ∧
    (useInteractiveSession.runTicks [Except.error "boom"]
        stoppedStEx).requestsIssued = stoppedStEx.requestsIssued :=
  ⟨claim_C6.2.2.1 pollStEx sessCompletedEx (by decide),
    (claim_C6.2.2.2 [Except.error "boom"] stoppedStEx rfl).1⟩

/-- C7: display truncation is done by the consumer, not the core: the registry
snapshot carries the accumulated output unmodified, and the terminal renders
output of at most MAX_DISPLAY_CHARS characters verbatim; longer output is
rendered as the fixed truncation-marker line followed by exactly the last
MAX_DISPLAY_CHARS characters, a suffix of the output. -/
theorem claim_C7 (s : InteractiveSessionResponse) :
    (∀ b : Backend.BackendSession, (Backend.registryGet b).output = b.output) ∧
    (s.output.length ≤ InteractiveTerminal.MAX_DISPLAY_CHARS →
        InteractiveTerminal.displayOutput (some s) = s.output) ∧
    (s.output.length > InteractiveTerminal.MAX_DISPLAY_CHARS →
        InteractiveTerminal.displayOutput (some s) =
          InteractiveTerminal.truncMarker ++
            s.output.drop
              (s.output.length - InteractiveTerminal.MAX_DISPLAY_CHARS) ∧
        (s.output.drop
            (s.output.length - InteractiveTerminal.MAX_DISPLAY_CHARS)).length =
          InteractiveTerminal.MAX_DISPLAY_CHARS ∧
        s.output.take
            (s.output.length - InteractiveTerminal.MAX_DISPLAY_CHARS) ++
          s.output.drop
            (s.output.length - InteractiveTerminal.MAX_DISPLAY_CHARS) =
          s.output) := by
  refine ⟨fun _ => rfl, ?_, ?_⟩
  · intro h
    by_cases he : s.output = []
    · simp [InteractiveTerminal.displayOutput, he]
    · simp [InteractiveTerminal.displayOutput, he, h]
  · intro h
    have hmax : InteractiveTerminal.MAX_DISPLAY_CHARS = 20000 := rfl
    have he : ¬s.output = [] := by
      intro he
      rw [he] at h
      simp [hmax] at h
    have hnle : ¬s.output.length ≤ InteractiveTerminal.MAX_DISPLAY_CHARS :=
      Nat.not_le.mpr h
    refine ⟨?_, ?_, List.take_append_drop _ _⟩
    · simp [InteractiveTerminal.displayOutput, he, hnle]
    · rw [List.length_drop]
      rw [hmax] at h ⊢
      omega

/-- C7 witness: a short output is rendered verbatim and a 20001-character
output is rendered as the marker plus its last 20000 characters. -/
theorem claim_C7_witness :
    InteractiveTerminal.displayOutput (some sessCompletedEx) =
      sessCompletedEx.output ∧
    InteractiveTerminal.displayOutput (some sessLongEx) =
      InteractiveTerminal.truncMarker ++
        sessLongEx.output.drop
          (sessLongEx.output.length - InteractiveTerminal.MAX_DISPLAY_CHARS) :=
  ⟨(claim_C7 sessCompletedEx).2.1 (by decide),
    ((claim_C7 sessLongEx).2.2 (by
      have h1 : sessLongEx.output.length = 20001 := by
        show (List.replicate 20001 'x').length = 20001
        rw [List.length_replicate]
      show InteractiveTerminal.MAX_DISPLAY_CHARS < sessLongEx.output.length
      rw [h1]
      norm_num [InteractiveTerminal.MAX_DISPLAY_CHARS])).1⟩

/-- C2: across any two polls of the same non-terminal session the earlier
accumulated output is a prefix of the later one, and its length is
non-decreasing. -/
theorem claim_C2 (chunks : List (List Char)) (t1 t2 : Nat) (h : t1 ≤ t2) :
    (∃ rest,
        Backend.outputAfter chunks t1 ++ rest = Backend.outputAfter chunks t2) ∧
    (Backend.outputAfter chunks t1).length ≤
      (Backend.outputAfter chunks t2).length := by
  have ht : t1 + (t2 - t1) = t2 := Nat.add_sub_cancel' h
  have hsplit : Backend.outputAfter chunks t2 =
      Backend.outputAfter chunks t1 ++
        ((chunks.drop t1).take (t2 - t1)).flatten := by
    unfold Backend.outputAfter
    rw [← ht, List.take_add, List.flatten_append, Nat.add_sub_cancel_left]
  refine ⟨⟨_, hsplit.symm⟩, ?_⟩
  rw [hsplit, List.length_append]
  exact Nat.le_add_right _ _

/-- C2 witness: the prefix and length facts instantiated on a concrete chunk
trace at poll times 1 and 3. -/
theorem claim_C2_witness :
    (∃ rest,
        Backend.outputAfter chunksEx 1 ++ rest = Backend.outputAfter chunksEx 3) ∧
    (Backend.outputAfter chunksEx 1).length ≤
      (Backend.outputAfter chunksEx 3).length :=
  claim_C2 chunksEx 1 3 (by decide)

/-- C3: the backend relay writes a newline if and only if the status is
running, otherwise it fails with SessionNotRunning and mutates nothing; the
client sendEnter path performs no status check (the snapshot is unchanged for
every outcome and a request is issued for every non-null id) and on failure
records only an error message; the terminal UI offers the Send Enter control
exactly while status is running or pending. -/
theorem claim_C3 :
    (∀ s : Backend.BackendSession,
        ((Backend.send_enter s).1 = .ok ∧
          (Backend.send_enter s).2.stdinWrites =
            s.stdinWrites ++ [['\n']]) ↔ s.status = .running) ∧
    (∀ s : Backend.BackendSession, s.status ≠ .running →
        Backend.send_enter s = (.sessionNotRunning, s)) ∧
    (∀ s : Backend.BackendSession, ∀ text, s.status ≠ .running →
        Backend.send_text s text = (.sessionNotRunning, s)) ∧
    (∀ sid res st,
        (useInteractiveSession.sendEnter sid res st).1.session = st.session) ∧
    (∀ id msg st,
        (useInteractiveSession.sendEnter (some id) (.error msg) st).1 =
          { st with error := some msg }) ∧
    (∀ id res st,
        (useInteractiveSession.sendEnter (some id) res st).2 = true) ∧
    (∀ s : InteractiveSessionResponse,
        InteractiveTerminal.sendEnterControlVisible (some s) = true ↔
          (s.status = .running ∨ s.status = .pending)) := by
  refine ⟨?_, ?_, ?_, ?_, fun _ _ _ => rfl, ?_, ?_⟩
  · intro s
    constructor
    · rintro ⟨h1, _⟩
      by_contra hr
      simp [Backend.send_enter, hr] at h1
    · intro hr
      simp [Backend.send_enter, hr]
  · intro s hr
    simp [Backend.send_enter, hr]
  · intro s text hr
    simp [Backend.send_text, hr]
  · intro sid res st
    cases sid with
    | none => rfl
    | some id => cases res <;> rfl
  · intro id res st
    cases res <;> rfl
  · intro s
    cases hs : s.status <;>
      simp [InteractiveTerminal.sendEnterControlVisible,
        useInteractiveSession.isRunning, hs]

/-- C3 witness: the relay facts instantiated on a concrete pending session
(rejected without mutation) and a concrete running session (newline written);
the UI control is visible on a concrete running session. -/
theorem claim_C3_witness :
    Backend.send_enter bsPendingEx = (.sessionNotRunning, bsPendingEx) ∧
    ((Backend.send_enter bsRunningEx).1 = .ok ∧
      (Backend.send_enter bsRunningEx).2.stdinWrites =
        bsRunningEx.stdinWrites ++ [['\n']]) ∧
    Backend.send_text bsPendingEx "hello".data =
      (.sessionNotRunning, bsPendingEx) ∧
    InteractiveTerminal.sendEnterControlVisible (some sessRunningEx) = true :=
  ⟨claim_C3.2.1 bsPendingEx (by decide),
    (claim_C3.1 bsRunningEx).mpr rfl,
    claim_C3.2.2.1 bsPendingEx "hello".data (by decide),
    (claim_C3.2.2.2.2.2.2 sessRunningEx).mpr (Or.inl rfl)⟩

/-- C5: cancelling a non-terminal session changes only the status field to
cancelled: on the backend every other snapshot field (session_id, command,
output, started_at, completed_at) is unchanged, and the client local update
after a successful cancel is exactly the previous snapshot with only the
status field overwritten. -/
theorem claim_C5 :
    (∀ s : Backend.BackendSession, s.status.isTerminal = false →
        (Backend.backendCancel s).2.status = .cancelled ∧
        (Backend.backendCancel s).2.session_id = s.session_id ∧
        (Backend.backendCancel s).2.command = s.command ∧
        (Backend.backendCancel s).2.output = s.output ∧
        (Backend.backendCancel s).2.started_at = s.started_at ∧
        (Backend.backendCancel s).2.completed_at = s.completed_at) ∧
    (∀ id st sess, st.session = some sess →
        (useInteractiveSession.cancel (some id) (.ok ()) st).1.session =
          some { sess with status := .cancelled }) := by
  constructor
  · intro s h
    simp [Backend.backendCancel, h]
  · intro id st sess h
    simp [useInteractiveSession.cancel, h]

/-- C5 witness: the frame facts instantiated on a concrete running backend
session and a concrete hook state. -/
theorem claim_C5_witness :
    (Backend.backendCancel bsRunningEx).2.output = bsRunningEx.output ∧
    (useInteractiveSession.cancel (some "sess-1") (.ok ()) pollStEx).1.session =
      some { sessRunningEx with status := .cancelled } :=
  ⟨(claim_C5.1 bsRunningEx (by decide)).2.2.2.1,
    claim_C5.2 "sess-1" pollStEx sessRunningEx rfl⟩

/-- C1 counterexample: the claim says the client-side snapshot never moves
from one terminal status to a different status, but the hook's cancel
callback, whose request the backend accepts as an idempotent no-op on a
terminal session, unconditionally overwrites the local snapshot status with
cancelled: starting from an observed completed session, after cancel the
snapshot shows cancelled, and cancelled differs from completed. -/
theorem claim_C1_counterexample :
    sessCompletedEx.status = .completed ∧
    Status.isTerminal sessCompletedEx.status = true ∧
    (useInteractiveSession.cancel (some "sess-2") (.ok ())
        { session := some sessCompletedEx, error := none,
          intervalActive := false, requestsIssued := 7 }).1.session.map
      InteractiveSessionResponse.status = some .cancelled ∧
    Status.cancelled ≠ Status.completed :=
  ⟨rfl, rfl, rfl, by decide⟩

/-- C1 (amended): status transitions only along the edges of the table of
§4.3 and any transition attempted from a terminal state is rejected as
InvalidState with the state unchanged; the client-side snapshot, however,
after a successful cancel always shows cancelled, even when it previously
showed a different terminal status. -/
theorem claim_C1_amended :
    (∀ s e, Status.isTerminal s = true →
        Backend.stepStatus s e = .error .InvalidState) ∧
    (∀ s e s', Backend.stepStatus s e = .ok s' →
        Backend.tableEdge s s' = true) ∧
    (∀ id st,
        (useInteractiveSession.cancel (some id) (.ok ()) st).1.session.map
            InteractiveSessionResponse.status =
          st.session.map (fun _ => Status.cancelled)) := by
  refine ⟨?_, ?_, ?_⟩
  · intro s e hs
    cases s <;> simp [Status.isTerminal] at hs <;> cases e <;> rfl
  · intro s e s' hok
    cases s <;> cases e <;> cases hok <;> rfl
  · intro id st
    cases hs : st.session with
    | none => simp [useInteractiveSession.cancel, hs]
    | some s => simp [useInteractiveSession.cancel, hs]

/-- C1 witness: a transition attempt from a concrete terminal state is
rejected, and a concrete accepted transition lies on the table. -/
theorem claim_C1_amended_witness :
    Backend.stepStatus .cancelled .cancelRequested = .error .InvalidState ∧
    Backend.tableEdge .pending .running = true :=
  ⟨claim_C1_amended.1 .cancelled .cancelRequested (by decide),
    claim_C1_amended.2.1 .pending .spawnSucceeds .running rfl⟩

/-- C4 counterexample: the claim says the client local snapshot after cancel
on a session that was already completed or failed still shows the original
terminal status, but the hook's cancel callback, whose request the backend
accepts as an idempotent no-op on a terminal session, unconditionally
overwrites the local status with cancelled: starting from an observed failed
session, after cancel the snapshot shows cancelled, not failed. -/
theorem claim_C4_counterexample :
    sessFailedEx.status = .failed ∧
    Status.isTerminal sessFailedEx.status = true ∧
    (useInteractiveSession.cancel (some "sess-3") (.ok ())
        { session := some sessFailedEx, error := none,
          intervalActive := false, requestsIssued := 9 }).1.session.map
      InteractiveSessionResponse.status = some .cancelled ∧
    Status.cancelled ≠ Status.failed :=
  ⟨rfl, rfl, rfl, by decide⟩

/-- C4 (amended): backend cancel is idempotent — on a terminal session it is a
no-op returning the current status, and a second cancel returns the same
status as the first, leaves the same state and sends no additional process
signal; the client local snapshot after a successful cancel, however, always
shows cancelled, even when the session was already completed or failed. -/
theorem claim_C4_amended :
    (∀ s : Backend.BackendSession, s.status.isTerminal = true →
        Backend.backendCancel s = (s.status, s)) ∧
    (∀ s : Backend.BackendSession,
        Backend.backendCancel (Backend.backendCancel s).2 =
          ((Backend.backendCancel s).1, (Backend.backendCancel s).2) ∧
        (Backend.backendCancel (Backend.backendCancel s).2).2.killSignalsSent =
          (Backend.backendCancel s).2.killSignalsSent) ∧
    (∀ st,
        (useInteractiveSession.cancel (some "sess-3") (.ok ()) st).1.session.map
            InteractiveSessionResponse.status =
          st.session.map (fun _ => Status.cancelled)) := by
  refine ⟨?_, ?_, ?_⟩
  · intro s h
    simp [Backend.backendCancel, h]
  · intro s
    by_cases h : s.status.isTerminal = true
    · have h1 : Backend.backendCancel s = (s.status, s) := by
        simp [Backend.backendCancel, h]
      simp [h1]
    · have h1 : Backend.backendCancel s =
          (Status.cancelled,
            { s with status := .cancelled, killSignalsSent := s.killSignalsSent + 1 }) := by
        simp [Backend.backendCancel, h]
      rw [h1]
      simp [Backend.backendCancel, Status.isTerminal]
  · intro st
    cases hs : st.session with
    | none => simp [useInteractiveSession.cancel, hs]
    | some s => simp [useInteractiveSession.cancel, hs]

/-- C4 witness: cancelling a concrete already-cancelled backend session is a
no-op returning its current status. -/
theorem claim_C4_amended_witness :
    Backend.backendCancel bsCancelledEx = (Status.cancelled, bsCancelledEx) :=
  claim_C4_amended.1 bsCancelledEx (by decide)

end RobotManager
